import Mathlib

/-!
Verification of the moltworker container boot and interception logic.

The development shallowly embeds three pieces of the repository:

* the pre-flight restore decision `should_restore_from_r2` from the
  startup shell script (start-openclaw.sh);
* the outbound fetch interceptor `patchedFetch` from
  fetch-cost-interceptor.cjs (URL rewriting and BYOK header management);
* the restore coordinator `restoreFromR2` from src/gateway/restore.ts,
  and the config-synthesis node script embedded in start-openclaw.sh.

External effects (the GNU date parser, the filesystem, process spawning)
are made explicit parameters or state records; everything else is a
direct transcription of the source.
-/

namespace Moltworker

/-! ### String primitives

The JavaScript and shell sources use substring containment
(`String.prototype.includes`), prefix and suffix tests, and trailing
slash trimming.  These are modelled on lists of characters. -/

/-- Boolean test that the first list occurs at the head of the second. -/
def startsL : List Char → List Char → Bool
  | [], _ => true
  | _ :: _, [] => false
  | a :: as, b :: bs => a == b && startsL as bs

/-- Boolean substring containment: the needle occurs somewhere in the hay. -/
def inclL (n : List Char) : List Char → Bool
  | [] => startsL n []
  | c :: rest => startsL n (c :: rest) || inclL n rest

/-- String-level substring containment, mirroring JS `hay.includes(n)`. -/
def sIncl (n hay : String) : Bool := inclL n.data hay.data

/-- String-level prefix test, mirroring JS `s.startsWith(p)`. -/
def sStarts (p s : String) : Bool := startsL p.data s.data

/-- String-level suffix test, mirroring JS `s.endsWith(p)`. -/
def sEnds (p s : String) : Bool := startsL p.data.reverse s.data.reverse

/-- Trailing slash trim, mirroring the JS regex replace of a final run of
slashes by the empty string. -/
def trimTrailSlash (s : String) : String :=
  ⟨((s.data.reverse).dropWhile (· == '/')).reverse⟩

/-- The remainder of the hay after the first occurrence of the needle,
mirroring JS `indexOf` followed by `slice(idx + n.length)`; `none` when
the needle does not occur. -/
def sliceAfterL (n : List Char) : List Char → Option (List Char)
  | [] => if startsL n [] then some [] else none
  | c :: rest =>
      if startsL n (c :: rest) then some ((c :: rest).drop n.length)
      else sliceAfterL n rest

/-- String form of `sliceAfterL`. -/
def sSliceAfter (n s : String) : Option String :=
  (sliceAfterL n.data s.data).map (fun l => ⟨l⟩)

/-- JS truthiness of an environment variable: set and non-empty. -/
def jsTruthy : Option String → Bool
  | none => false
  | some s => !(s == "")

/-! ### C1: the pre-flight restore decision

`should_restore_from_r2` in start-openclaw.sh.  The shell function reads
two marker files (the mirror one at `$BACKUP_DIR/.last-sync`, the local
one at `$CONFIG_DIR/.last-sync`) and converts their contents to epoch
seconds with `date -d "$T" +%s 2>/dev/null || echo "0"`.  A marker is
modelled as `Option String` (`none` = file absent, `some s` = file
present with content `s`) and the external `date -d` parser as a
function `String → Option Int` (`none` = unparseable, falling back to
epoch `0` exactly as the `|| echo "0"` does). -/

/-- Epoch seconds assigned to a marker state by the shell script: `0` for
a missing file, the `date -d` result for a present file, `0` again when
`date -d` fails. -/
def markerEpoch (dateParse : String → Option Int) : Option String → Int
  | none => 0
  | some s => (dateParse s).getD 0

/-- Transcription of `should_restore_from_r2` from start-openclaw.sh:
missing mirror marker means no restore; missing local marker means
restore; otherwise restore exactly when the mirror epoch strictly
exceeds the local epoch. -/
def should_restore_from_r2 (dateParse : String → Option Int)
    (r2Marker localMarker : Option String) : Bool :=
  match r2Marker with
  | none => false
  | some r2Time =>
    match localMarker with
    | none => true
    | some localTime =>
        (dateParse r2Time).getD 0 > (dateParse localTime).getD 0

/-- C1. The claim states the decision is `restore ⇔ mirror epoch > local
epoch` with missing or unparseable markers counted as epoch 0, and in
particular that an unparseable mirror marker together with an absent
local marker yields no restore.  The code instead restores whenever the
mirror marker file exists and the local marker file is absent, without
consulting the epochs, so at that state it returns `true` while the
claimed comparison `0 > 0` is false. -/
theorem c1_counterexample :
    should_restore_from_r2 (fun _ => none) (some "garbage") none = true
    ∧ ¬ (markerEpoch (fun _ => none) (some "garbage") >
          markerEpoch (fun _ => none) none) := by
  constructor
  · rfl
  · simp [markerEpoch]

/-- C1 (amended). The decision restores exactly when the mirror marker
file exists and either the local marker file is absent or the mirror
epoch strictly exceeds the local epoch; unparseable timestamps are
treated as epoch 0 in the comparison. -/
theorem c1_should_restore_amended (dateParse : String → Option Int)
    (r2Marker localMarker : Option String) :
    should_restore_from_r2 dateParse r2Marker localMarker =
      (r2Marker.isSome &&
        (localMarker.isNone ||
          decide (markerEpoch dateParse r2Marker >
                  markerEpoch dateParse localMarker))) := by
  cases r2Marker with
  | none => rfl
  | some r =>
    cases localMarker with
    | none => rfl
    | some l => simp [should_restore_from_r2, markerEpoch]

/-! ### The fetch interceptor (fetch-cost-interceptor.cjs)

Requests are modelled with a structured URL; the string the JS code
inspects with `includes` is recovered by `Url.href`, and the `pathname`
and `search` components that `new URL(url)` would expose are the `path`
and `query` fields.  Headers are a list of name/value pairs; the JS
`Headers` class compares names case-insensitively, which is modelled by
lowering ASCII names. -/

/-- Structured URL: `href` is scheme ++ "://" ++ host ++ path ++ query. -/
structure Url where
  scheme : String
  host : String
  path : String
  query : String
deriving DecidableEq, Repr

/-- The full URL string the interceptor inspects with `includes`. -/
def Url.href (u : Url) : String := u.scheme ++ "://" ++ u.host ++ u.path ++ u.query

/-- ASCII lowercase of one character (JS header-name normalisation). -/
def lowerChar (c : Char) : Char :=
  if 'A' ≤ c ∧ c ≤ 'Z' then Char.ofNat (c.toNat + 32) else c

/-- ASCII lowercase of a string. -/
def lowerStr (s : String) : String := ⟨s.data.map lowerChar⟩

/-- Case-insensitive header name comparison, as the JS `Headers` class. -/
def hNameEq (a b : String) : Bool := lowerStr a == lowerStr b

/-- A JS `Headers` object: an ordered list of name/value entries. -/
structure Headers where
  entries : List (String × String)
deriving DecidableEq, Repr

/-- `headers.has(n)` of the JS `Headers` class. -/
def Headers.hasH (h : Headers) (n : String) : Bool :=
  h.entries.any (fun e => hNameEq e.1 n)

/-- `headers.delete(n)` of the JS `Headers` class. -/
def Headers.deleteH (h : Headers) (n : String) : Headers :=
  ⟨h.entries.filter (fun e => !(hNameEq e.1 n))⟩

/-- `headers.set(n, v)` of the JS `Headers` class: replace the value when
the name is present, append otherwise. -/
def Headers.setH (h : Headers) (n v : String) : Headers :=
  if h.hasH n then ⟨h.entries.map (fun e => if hNameEq e.1 n then (e.1, v) else e)⟩
  else ⟨h.entries ++ [(n, v)]⟩

/-- `headers.get(n)` of the JS `Headers` class (first matching value). -/
def Headers.getH (h : Headers) (n : String) : Option String :=
  (h.entries.find? (fun e => hNameEq e.1 n)).map (fun e => e.2)

/-- `new Headers(init.headers)`.  The JS constructor normalises names to
lowercase; since every header operation above already compares names
case-insensitively, that normalisation is observationally irrelevant and
the entries are kept as given. -/
def mkHeaders (l : List (String × String)) : Headers := ⟨l⟩

/-- The relay base URL from `AI_GATEWAY_BASE_URL`, structured the same
way as `Url` but with no query component. -/
structure GwBase where
  scheme : String
  host : String
  path : String
deriving DecidableEq, Repr

/-- The base URL string held in the environment variable. -/
def GwBase.href (b : GwBase) : String := b.scheme ++ "://" ++ b.host ++ b.path

/-- The interceptor configuration captured from the environment at load
time; `none` models an unset or empty (JS-falsy) variable. -/
structure ItcEnv where
  CF_AIG_AUTHORIZATION : Option String
  AI_GATEWAY_BASE_URL : Option GwBase
deriving Repr

/-- What the interceptor hands to the underlying `originalFetch`: the
final URL and the final header list. -/
structure FetchCall where
  url : Url
  headers : List (String × String)
deriving DecidableEq, Repr

/-- `isEmbeddingRequest` of the interceptor: the URL mentions
`:embedContent` or `:batchEmbedContents`. -/
def isEmbeddingOf (u : Url) : Bool :=
  sIncl ":embedContent" u.href || sIncl ":batchEmbedContents" u.href

/-- The URL-rewriting stage: a request whose URL mentions the native
Google host, when a relay base containing `/google-ai-studio` is
configured, is retargeted to the relay base (trailing slashes trimmed)
followed by the original path and query. -/
def rewriteGoogleUrl (env : ItcEnv) (u : Url) : Url :=
  match env.AI_GATEWAY_BASE_URL with
  | none => u
  | some b =>
    if sIncl "generativelanguage.googleapis.com" u.href &&
        sIncl "/google-ai-studio" b.href then
      { scheme := b.scheme, host := b.host,
        path := trimTrailSlash b.path ++ u.path, query := u.query }
    else u

/-- The credential-stripping half of the BYOK transformation: drop any
`Authorization` entry, then any `x-goog-api-key` entry, each deletion
guarded by a presence test exactly as in the source. -/
def byokStrip (h : Headers) : Headers :=
  let h1 := if h.hasH "Authorization" then h.deleteH "Authorization" else h
  if h1.hasH "x-goog-api-key" then h1.deleteH "x-goog-api-key" else h1

/-- The full BYOK header transformation: strip, then add the relay-auth
header when absent. -/
def byokTransform (tok : Option String) (h : Headers) : Headers :=
  match tok with
  | none => h
  | some t =>
    let h2 := byokStrip h
    if h2.hasH "cf-aig-authorization" then h2
    else h2.setH "cf-aig-authorization" t

/-- The tail of `patchedFetch`: BYOK header management for requests whose
(possibly rewritten) URL targets the relay host and matches the
`/google-ai-studio` or `/custom-` routes; everything else passes through
with its original headers. -/
def byokStage (env : ItcEnv) (u1 : Url) (i : List (String × String)) : FetchCall :=
  let isAIGateway := sIncl "gateway.ai.cloudflare.com" u1.href
  let needsBYOK := sIncl "/google-ai-studio" u1.href || sIncl "/custom-" u1.href
  if isAIGateway && needsBYOK then
    ⟨u1, (byokTransform env.CF_AIG_AUTHORIZATION (mkHeaders i)).entries⟩
  else ⟨u1, i⟩

/-- Transcription of `patchedFetch` from fetch-cost-interceptor.cjs.
An embedding request to the native Google host passes through untouched;
a native Google request is rewritten to the relay; an embedding request
that reaches the relay on the `/google-ai-studio` route is redirected
back to the native Google host (restoring a `/v1beta` prefix when the
SDK omitted it) with its headers untouched; remaining relay requests on
BYOK routes get the BYOK header transformation; everything else passes
through unchanged. -/
def patchedFetch (env : ItcEnv) (u : Url) (i : List (String × String)) : FetchCall :=
  let isNativeGoogle := sIncl "generativelanguage.googleapis.com" u.href
  let isEmbedding := isEmbeddingOf u
  if isEmbedding && isNativeGoogle then ⟨u, i⟩
  else
    let u1 := rewriteGoogleUrl env u
    let isAIGateway := sIncl "gateway.ai.cloudflare.com" u1.href
    let isGAS := sIncl "/google-ai-studio" u1.href
    if isAIGateway && isGAS && isEmbedding then
      match sSliceAfter "/google-ai-studio" u1.path with
      | some rest =>
        let rest1 :=
          if !(sStarts "/v1beta" rest) && !(sStarts "/v1/" rest) then
            "/v1beta" ++ rest
          else rest
        ⟨{ scheme := "https", host := "generativelanguage.googleapis.com",
           path := rest1, query := u1.query }, i⟩
      | none => byokStage env u1 i
    else byokStage env u1 i

/-! ### Header lemmas -/

theorem hNameEq_self (n : String) : hNameEq n n = true := by
  simp [hNameEq]

theorem any_filter_not_self (l : List (String × String)) (n : String) :
    ((l.filter fun e => !(hNameEq e.1 n)).any fun e => hNameEq e.1 n) = false := by
  induction l with
  | nil => rfl
  | cons a t ih =>
    by_cases hc : hNameEq a.1 n = true
    · simp [List.filter_cons, hc, ih]
    · have hc' : hNameEq a.1 n = false := by
        cases hh : hNameEq a.1 n
        · rfl
        · exact absurd hh hc
      simp [List.filter_cons, hc', ih]

theorem hasH_deleteH_self (h : Headers) (n : String) :
    (h.deleteH n).hasH n = false :=
  any_filter_not_self h.entries n

theorem any_filter_false (l : List (String × String))
    (p q : (String × String) → Bool) (hm : l.any q = false) :
    (l.filter p).any q = false := by
  induction l with
  | nil => rfl
  | cons a t ih =>
    simp only [List.any_cons, Bool.or_eq_false_iff] at hm
    by_cases hp : p a = true
    · simp [List.filter_cons, hp, List.any_cons, hm.1, ih hm.2]
    · have hp' : p a = false := by
        cases hh : p a
        · rfl
        · exact absurd hh hp
      simp [List.filter_cons, hp', ih hm.2]

theorem hasH_deleteH_mono (h : Headers) (n m : String)
    (hm : h.hasH m = false) : (h.deleteH n).hasH m = false :=
  any_filter_false h.entries _ _ hm

theorem byokStrip_hasH_auth (h : Headers) :
    (byokStrip h).hasH "Authorization" = false := by
  unfold byokStrip
  have h1 : (if h.hasH "Authorization" then h.deleteH "Authorization"
      else h).hasH "Authorization" = false := by
    cases hA : h.hasH "Authorization"
    · simp [hA]
    · simpa [hA] using hasH_deleteH_self h "Authorization"
  cases hG : (if h.hasH "Authorization" then h.deleteH "Authorization"
      else h).hasH "x-goog-api-key"
  · simpa [hG] using h1
  · simpa [hG] using hasH_deleteH_mono _ "x-goog-api-key" _ h1

theorem byokStrip_hasH_goog (h : Headers) :
    (byokStrip h).hasH "x-goog-api-key" = false := by
  unfold byokStrip
  cases hG : (if h.hasH "Authorization" then h.deleteH "Authorization"
      else h).hasH "x-goog-api-key"
  · simp [hG]
  · simpa [hG] using hasH_deleteH_self _ "x-goog-api-key"

theorem byokStrip_hasH_mono (h : Headers) (m : String)
    (hm : h.hasH m = false) : (byokStrip h).hasH m = false := by
  unfold byokStrip
  have h1 : (if h.hasH "Authorization" then h.deleteH "Authorization"
      else h).hasH m = false := by
    cases hA : h.hasH "Authorization"
    · simpa [hA] using hm
    · simpa [hA] using hasH_deleteH_mono h "Authorization" m hm
  cases hG : (if h.hasH "Authorization" then h.deleteH "Authorization"
      else h).hasH "x-goog-api-key"
  · simpa [hG] using h1
  · simpa [hG] using hasH_deleteH_mono _ "x-goog-api-key" m h1

theorem byokStrip_eq_self (h : Headers)
    (hA : h.hasH "Authorization" = false)
    (hG : h.hasH "x-goog-api-key" = false) : byokStrip h = h := by
  unfold byokStrip
  simp [hA, hG]

theorem setH_of_not_hasH (h : Headers) (n v : String)
    (hn : h.hasH n = false) : h.setH n v = ⟨h.entries ++ [(n, v)]⟩ := by
  simp [Headers.setH, hn]

theorem hasH_append_single (l : List (String × String)) (n v m : String) :
    Headers.hasH ⟨l ++ [(n, v)]⟩ m = (Headers.hasH ⟨l⟩ m || hNameEq n m) := by
  simp [Headers.hasH, List.any_append]

theorem find?_append_of_none {α : Type} (l₁ l₂ : List α) (p : α → Bool)
    (h : l₁.find? p = none) : (l₁ ++ l₂).find? p = l₂.find? p := by
  induction l₁ with
  | nil => rfl
  | cons a t ih =>
    by_cases hp : p a = true
    · rw [List.find?_cons_of_pos _ hp] at h
      exact absurd h (by simp)
    · rw [List.find?_cons_of_neg _ hp] at h
      rw [List.cons_append, List.find?_cons_of_neg _ hp]
      exact ih h

theorem getH_append_of_not_hasH (h : Headers) (n v : String)
    (hn : h.hasH n = false) :
    Headers.getH ⟨h.entries ++ [(n, v)]⟩ n = some v := by
  have hfind : h.entries.find? (fun e => hNameEq e.1 n) = none := by
    rw [List.find?_eq_none]
    intro x hx hpx
    have hany : h.entries.any (fun e => hNameEq e.1 n) = true :=
      List.any_eq_true.mpr ⟨x, hx, hpx⟩
    rw [Headers.hasH] at hn
    rw [hany] at hn
    exact Bool.true_eq_false.mp hn
  unfold Headers.getH
  rw [find?_append_of_none _ _ _ hfind]
  simp [List.find?_cons, hNameEq_self]

/-- Post-state of the BYOK transformation with a configured token: no
`Authorization`, no `x-goog-api-key`, and (when the inbound request did
not already carry one) the relay-auth header holds the token. -/
theorem byokTransform_spec (t : String) (h : Headers)
    (hcf : h.hasH "cf-aig-authorization" = false) :
    (byokTransform (some t) h).hasH "Authorization" = false ∧
    (byokTransform (some t) h).hasH "x-goog-api-key" = false ∧
    (byokTransform (some t) h).getH "cf-aig-authorization" = some t := by
  have hcf2 : (byokStrip h).hasH "cf-aig-authorization" = false :=
    byokStrip_hasH_mono h _ hcf
  unfold byokTransform
  simp only [hcf2, Bool.false_eq_true, if_false,
    setH_of_not_hasH _ _ _ hcf2]
  refine ⟨?_, ?_, ?_⟩
  · rw [hasH_append_single]
    have : hNameEq "cf-aig-authorization" "Authorization" = false := by decide
    simp [byokStrip_hasH_auth h, this]
  · rw [hasH_append_single]
    have : hNameEq "cf-aig-authorization" "x-goog-api-key" = false := by decide
    simp [byokStrip_hasH_goog h, this]
  · exact getH_append_of_not_hasH _ _ _ hcf2

/-- The BYOK transformation is idempotent for every token configuration:
re-applying it to already-transformed headers changes nothing. -/
theorem byokTransform_idem (tok : Option String) (h : Headers) :
    byokTransform tok (byokTransform tok h) = byokTransform tok h := by
  cases tok with
  | none => rfl
  | some t =>
    by_cases hcf : (byokStrip h).hasH "cf-aig-authorization" = true
    · have hr : byokTransform (some t) h = byokStrip h := by
        unfold byokTransform
        simp [hcf]
      rw [hr]
      unfold byokTransform
      rw [byokStrip_eq_self _ (byokStrip_hasH_auth h) (byokStrip_hasH_goog h)]
      simp [hcf]
    · have hcf' := Bool.of_not_eq_true hcf
      have hr : byokTransform (some t) h =
          ⟨(byokStrip h).entries ++ [("cf-aig-authorization", t)]⟩ := by
        unfold byokTransform
        simp [hcf', setH_of_not_hasH _ _ _ hcf']
      rw [hr]
      have hA : Headers.hasH
          ⟨(byokStrip h).entries ++ [("cf-aig-authorization", t)]⟩
          "Authorization" = false := by
        rw [hasH_append_single]
        have : hNameEq "cf-aig-authorization" "Authorization" = false := by decide
        simp [byokStrip_hasH_auth h, this]
      have hG : Headers.hasH
          ⟨(byokStrip h).entries ++ [("cf-aig-authorization", t)]⟩
          "x-goog-api-key" = false := by
        rw [hasH_append_single]
        have : hNameEq "cf-aig-authorization" "x-goog-api-key" = false := by decide
        simp [byokStrip_hasH_goog h, this]
      have hC : Headers.hasH
          ⟨(byokStrip h).entries ++ [("cf-aig-authorization", t)]⟩
          "cf-aig-authorization" = true := by
        rw [hasH_append_single]
        simp [hNameEq_self]
      unfold byokTransform
      rw [byokStrip_eq_self _ hA hG]
      simp [hC]

/-! ### Interceptor stage lemmas -/

theorem rewriteGoogleUrl_id (env : ItcEnv) (u : Url)
    (hg : sIncl "generativelanguage.googleapis.com" u.href = false) :
    rewriteGoogleUrl env u = u := by
  unfold rewriteGoogleUrl
  cases env.AI_GATEWAY_BASE_URL with
  | none => rfl
  | some b => simp [hg]

theorem byokStage_url (env : ItcEnv) (u1 : Url) (i : List (String × String)) :
    (byokStage env u1 i).url = u1 := by
  simp only [byokStage]
  split <;> rfl

theorem byokStage_headers_of_none (env : ItcEnv) (u1 : Url)
    (i : List (String × String)) (htok : env.CF_AIG_AUTHORIZATION = none) :
    (byokStage env u1 i).headers = i := by
  simp only [byokStage]
  split
  · simp [byokTransform, htok, mkHeaders]
  · rfl

/-! ### C2: the embedding exemption -/

/-- C2 (counterexample). The claim says an embedding-operation request is
never stripped of its credentials even when it matches a BYOK rule such
as a relay `/custom-` provider route.  On a relay `/custom-` embedding
request with a configured relay token, the interceptor takes the plain
BYOK branch (the embedding carve-outs only cover the native Google host
and the relay `/google-ai-studio` route) and removes the inbound
`Authorization` header. -/
theorem c2_counterexample :
    isEmbeddingOf ⟨"https", "gateway.ai.cloudflare.com",
        "/v1/acc/gw/custom-fireworks/models/m:embedContent", ""⟩ = true ∧
    patchedFetch ⟨some "tok", none⟩
        ⟨"https", "gateway.ai.cloudflare.com",
         "/v1/acc/gw/custom-fireworks/models/m:embedContent", ""⟩
        [("Authorization", "Bearer secret")] =
      ⟨⟨"https", "gateway.ai.cloudflare.com",
        "/v1/acc/gw/custom-fireworks/models/m:embedContent", ""⟩,
       [("cf-aig-authorization", "tok")]⟩ := by
  constructor
  · rfl
  · rfl

/-- C2 (amended). An embedding request to the native Google host passes
through completely untouched (URL, headers and credentials), and an
embedding request reaching the relay on the `/google-ai-studio` route is
redirected to the native Google host with its headers untouched; the
exemption does not extend to relay `/custom-` provider routes, which
still undergo BYOK header stripping. -/
theorem c2_embedding_exemption_amended (env : ItcEnv) (u : Url)
    (i : List (String × String)) :
    (isEmbeddingOf u = true →
      sIncl "generativelanguage.googleapis.com" u.href = true →
      patchedFetch env u i = ⟨u, i⟩) ∧
    (∀ rest : String, isEmbeddingOf u = true →
      sIncl "generativelanguage.googleapis.com" u.href = false →
      sIncl "gateway.ai.cloudflare.com" u.href = true →
      sIncl "/google-ai-studio" u.href = true →
      sSliceAfter "/google-ai-studio" u.path = some rest →
      (patchedFetch env u i).headers = i ∧
      (patchedFetch env u i).url.host = "generativelanguage.googleapis.com") := by
  constructor
  · intro he hg
    simp [patchedFetch, he, hg]
  · intro rest he hg hgw hgas hslice
    have hrw := rewriteGoogleUrl_id env u hg
    simp [patchedFetch, he, hg, hrw, hgw, hgas, hslice]

/-- C2 (witness for the amended theorem): a native Google embedding call
passes through untouched, and a relay `/google-ai-studio` embedding call
keeps its headers. -/
theorem c2_witness :
    patchedFetch ⟨some "tok", none⟩
        ⟨"https", "generativelanguage.googleapis.com",
         "/v1beta/models/gemini-embedding-001:embedContent", ""⟩
        [("x-goog-api-key", "gk")] =
      ⟨⟨"https", "generativelanguage.googleapis.com",
        "/v1beta/models/gemini-embedding-001:embedContent", ""⟩,
       [("x-goog-api-key", "gk")]⟩ ∧
    (patchedFetch ⟨some "tok", none⟩
        ⟨"https", "gateway.ai.cloudflare.com",
         "/v1/acc/gw/google-ai-studio/models/gemini-embedding-001:batchEmbedContents", ""⟩
        [("x-goog-api-key", "gk")]).headers = [("x-goog-api-key", "gk")] := by
  constructor
  · exact (c2_embedding_exemption_amended ⟨some "tok", none⟩
      ⟨"https", "generativelanguage.googleapis.com",
       "/v1beta/models/gemini-embedding-001:embedContent", ""⟩
      [("x-goog-api-key", "gk")]).1 rfl rfl
  · exact ((c2_embedding_exemption_amended ⟨some "tok", none⟩
      ⟨"https", "gateway.ai.cloudflare.com",
       "/v1/acc/gw/google-ai-studio/models/gemini-embedding-001:batchEmbedContents", ""⟩
      [("x-goog-api-key", "gk")]).2
      "/models/gemini-embedding-001:batchEmbedContents" rfl rfl rfl rfl rfl).1

/-! ### C3: BYOK stripping plus idempotence -/

/-- C3. A request whose (possibly rewritten) URL targets the relay host
on a BYOK route, with a relay token configured and not taken by an
embedding carve-out, is forwarded with the BYOK-transformed headers: the
inbound `Authorization` and `x-goog-api-key` entries are gone and (the
inbound request carrying no relay-auth header of its own) the
`cf-aig-authorization` header holds the configured token; the header
transformation is idempotent, so a second application changes nothing. -/
theorem c3_byok_strip_and_idempotent (env : ItcEnv) (u u1 : Url)
    (i : List (String × String)) (tok : String)
    (htok : env.CF_AIG_AUTHORIZATION = some tok)
    (hemb : isEmbeddingOf u = false)
    (hu1 : rewriteGoogleUrl env u = u1)
    (hgw : sIncl "gateway.ai.cloudflare.com" u1.href = true)
    (hroute : (sIncl "/google-ai-studio" u1.href || sIncl "/custom-" u1.href) = true)
    (hcf : Headers.hasH ⟨i⟩ "cf-aig-authorization" = false) :
    patchedFetch env u i = ⟨u1, (byokTransform (some tok) ⟨i⟩).entries⟩ ∧
    Headers.hasH ⟨(patchedFetch env u i).headers⟩ "Authorization" = false ∧
    Headers.hasH ⟨(patchedFetch env u i).headers⟩ "x-goog-api-key" = false ∧
    Headers.getH ⟨(patchedFetch env u i).headers⟩ "cf-aig-authorization" = some tok ∧
    (∀ h : Headers, byokTransform (some tok) (byokTransform (some tok) h) =
        byokTransform (some tok) h) := by
  have hmain : patchedFetch env u i = ⟨u1, (byokTransform (some tok) ⟨i⟩).entries⟩ := by
    simp [patchedFetch, hemb, hu1, byokStage, hgw, hroute, mkHeaders, htok]
  obtain ⟨hA, hG, hC⟩ := byokTransform_spec tok ⟨i⟩ hcf
  refine ⟨hmain, ?_, ?_, ?_, fun h => byokTransform_idem (some tok) h⟩
  · rw [hmain]
    exact hA
  · rw [hmain]
    exact hG
  · rw [hmain]
    exact hC

/-- C3 (witness): a relay `/google-ai-studio` generation request with an
inbound SDK key has its credentials replaced by the relay token. -/
theorem c3_witness :
    patchedFetch ⟨some "tok", none⟩
        ⟨"https", "gateway.ai.cloudflare.com",
         "/v1/acc/gw/google-ai-studio/v1beta/models/gemini-2.5-flash:generateContent", ""⟩
        [("Authorization", "Bearer sk"), ("x-goog-api-key", "gk")] =
      ⟨⟨"https", "gateway.ai.cloudflare.com",
        "/v1/acc/gw/google-ai-studio/v1beta/models/gemini-2.5-flash:generateContent", ""⟩,
       [("cf-aig-authorization", "tok")]⟩ := by
  have h := (c3_byok_strip_and_idempotent ⟨some "tok", none⟩
      ⟨"https", "gateway.ai.cloudflare.com",
       "/v1/acc/gw/google-ai-studio/v1beta/models/gemini-2.5-flash:generateContent", ""⟩
      ⟨"https", "gateway.ai.cloudflare.com",
       "/v1/acc/gw/google-ai-studio/v1beta/models/gemini-2.5-flash:generateContent", ""⟩
      [("Authorization", "Bearer sk"), ("x-goog-api-key", "gk")]
      "tok" rfl rfl rfl rfl rfl rfl).1
  exact h.trans (by decide)

/-! ### C4: no stripping without a replacement token -/

/-- C4. With no relay token configured, the interceptor forwards every
request with its inbound headers intact: no `Authorization` or
provider-native API-key entry is ever removed. -/
theorem c4_no_strip_without_token (env : ItcEnv) (u : Url)
    (i : List (String × String))
    (htok : env.CF_AIG_AUTHORIZATION = none) :
    (patchedFetch env u i).headers = i := by
  simp only [patchedFetch]
  split
  · rfl
  · split
    · split
      · rfl
      · exact byokStage_headers_of_none env _ i htok
    · exact byokStage_headers_of_none env _ i htok

/-- C4 (witness): a relay BYOK-route request keeps its bearer token when
`CF_AIG_AUTHORIZATION` is unset. -/
theorem c4_witness :
    (patchedFetch ⟨none, none⟩
        ⟨"https", "gateway.ai.cloudflare.com",
         "/v1/acc/gw/google-ai-studio/v1beta/models/gemini-2.5-flash:generateContent", ""⟩
        [("Authorization", "Bearer sk")]).headers =
      [("Authorization", "Bearer sk")] :=
  c4_no_strip_without_token ⟨none, none⟩
    ⟨"https", "gateway.ai.cloudflare.com",
     "/v1/acc/gw/google-ai-studio/v1beta/models/gemini-2.5-flash:generateContent", ""⟩
    [("Authorization", "Bearer sk")] rfl

/-! ### C5: the native Google URL rewrite -/

/-- C5. A non-embedding request mentioning the native Google host, when
the configured relay base contains `/google-ai-studio`, is forwarded to
the relay base (trailing slashes trimmed) concatenated with the original
path and query string: path-after-host and query are preserved exactly. -/
theorem c5_google_rewrite (env : ItcEnv) (u : Url)
    (i : List (String × String)) (b : GwBase)
    (hbase : env.AI_GATEWAY_BASE_URL = some b)
    (hgas : sIncl "/google-ai-studio" b.href = true)
    (hg : sIncl "generativelanguage.googleapis.com" u.href = true)
    (he1 : sIncl ":embedContent" u.href = false)
    (he2 : sIncl ":batchEmbedContents" u.href = false) :
    (patchedFetch env u i).url =
      { scheme := b.scheme, host := b.host,
        path := trimTrailSlash b.path ++ u.path, query := u.query } := by
  have hemb : isEmbeddingOf u = false := by
    simp [isEmbeddingOf, he1, he2]
  have hrw : rewriteGoogleUrl env u =
      { scheme := b.scheme, host := b.host,
        path := trimTrailSlash b.path ++ u.path, query := u.query } := by
    simp [rewriteGoogleUrl, hbase, hg, hgas]
  simp [patchedFetch, hemb, hrw, byokStage_url]

/-- C5 (witness): a concrete generation call is retargeted to the relay
with its path and query intact. -/
theorem c5_witness :
    (patchedFetch
        ⟨some "tok", some ⟨"https", "gateway.ai.cloudflare.com", "/v1/acc/gw/google-ai-studio/"⟩⟩
        ⟨"https", "generativelanguage.googleapis.com",
         "/v1beta/models/gemini-2.5-flash:generateContent", "?alt=json"⟩
        []).url =
      ⟨"https", "gateway.ai.cloudflare.com",
       "/v1/acc/gw/google-ai-studio/v1beta/models/gemini-2.5-flash:generateContent",
       "?alt=json"⟩ := by
  have h := c5_google_rewrite
      ⟨some "tok", some ⟨"https", "gateway.ai.cloudflare.com", "/v1/acc/gw/google-ai-studio/"⟩⟩
      ⟨"https", "generativelanguage.googleapis.com",
       "/v1beta/models/gemini-2.5-flash:generateContent", "?alt=json"⟩
      [] ⟨"https", "gateway.ai.cloudflare.com", "/v1/acc/gw/google-ai-studio/"⟩
      rfl rfl rfl rfl rfl
  exact h.trans (by decide)

/-! ### C8: pass-through of non-matching requests -/

/-- C8. A request mentioning neither the native Google host nor the relay
host is forwarded to the underlying fetch with the identical URL and the
identical headers: no transformation at all. -/
theorem c8_passthrough (env : ItcEnv) (u : Url) (i : List (String × String))
    (hg : sIncl "generativelanguage.googleapis.com" u.href = false)
    (hw : sIncl "gateway.ai.cloudflare.com" u.href = false) :
    patchedFetch env u i = ⟨u, i⟩ := by
  have hrw := rewriteGoogleUrl_id env u hg
  simp [patchedFetch, hrw, hg, hw, byokStage]

/-- C8 (witness): an Anthropic API call with a relay token configured is
forwarded byte-identically. -/
theorem c8_witness :
    patchedFetch ⟨some "tok", some ⟨"https", "gateway.ai.cloudflare.com", "/v1/acc/gw/google-ai-studio"⟩⟩
        ⟨"https", "api.anthropic.com", "/v1/messages", ""⟩
        [("Authorization", "Bearer sk"), ("content-type", "application/json")] =
      ⟨⟨"https", "api.anthropic.com", "/v1/messages", ""⟩,
       [("Authorization", "Bearer sk"), ("content-type", "application/json")]⟩ :=
  c8_passthrough
    ⟨some "tok", some ⟨"https", "gateway.ai.cloudflare.com", "/v1/acc/gw/google-ai-studio"⟩⟩
    ⟨"https", "api.anthropic.com", "/v1/messages", ""⟩
    [("Authorization", "Bearer sk"), ("content-type", "application/json")] rfl rfl

/-! ### The restore coordinator (src/gateway/restore.ts)

The filesystem under the mirror's `workspace/` directory is modelled as
a list of nodes (regular files and directories).  The persona entry of
`restoreFromR2` is the shell command
`find R2/workspace -maxdepth 1 -name '*.md' -type f -exec cp {} /root/clawd/`:
it selects exactly the regular files at depth 1 whose name matches
`*.md` and copies each to `/root/clawd/` under its own name. -/

/-- A node of a directory listing: a regular file or a subdirectory. -/
inductive FsNode where
  | file (name : String) : FsNode
  | dir (name : String) (children : List FsNode) : FsNode

/-- The depth-1 regular files matching `*.md` selected by the `find`
command of the persona restore entry (`-maxdepth 1 -name '*.md' -type f`
over the workspace root). -/
def personaMdFiles (children : List FsNode) : List String :=
  children.filterMap (fun n =>
    match n with
    | .file name => if sEnds ".md" name then some name else none
    | .dir _ _ => none)

/-- Destination paths produced by the persona entry: each selected file
is copied to `/root/clawd/` under its own basename. -/
def personaRestoredPaths (children : List FsNode) : List String :=
  (personaMdFiles children).map (fun n => "/root/clawd/" ++ n)

/-- The top-level names matched by the shell variant
`cp -a "$BACKUP_DIR/workspace/"*.md "$WORKSPACE_DIR/"` in
start-openclaw.sh: any directory entry (file or directory) whose name
matches `*.md`. -/
def shellPersonaNames (children : List FsNode) : List String :=
  children.filterMap (fun n =>
    match n with
    | .file name => if sEnds ".md" name then some name else none
    | .dir name _ => if sEnds ".md" name then some name else none)

/-- C6. Every path produced by the persona restore entry comes from a
depth-1 regular `*.md` file of the mirror workspace root — nothing
nested under `memory/`, `tov/`, `assets/` or any other subdirectory is
copied by that entry; and the shell variant never copies the `memory`
directory either, since `memory` does not match `*.md`. -/
theorem c6_persona_restore (children : List FsNode) (p : String)
    (hp : p ∈ personaRestoredPaths children) :
    (∃ name, FsNode.file name ∈ children ∧ sEnds ".md" name = true ∧
      p = "/root/clawd/" ++ name) ∧
    "memory" ∉ shellPersonaNames children := by
  constructor
  · rcases List.mem_map.mp hp with ⟨name, hmem, rfl⟩
    rcases List.mem_filterMap.mp hmem with ⟨node, hnode, heq⟩
    cases node with
    | file nm =>
      by_cases hmd : sEnds ".md" nm = true
      · simp [hmd] at heq
        subst heq
        exact ⟨nm, hnode, hmd, rfl⟩
      · simp [hmd] at heq
    | dir nm ch => simp at heq
  · intro hmem
    rcases List.mem_filterMap.mp hmem with ⟨node, hnode, heq⟩
    cases node with
    | file nm =>
      by_cases hmd : sEnds ".md" nm = true
      · simp [hmd] at heq
        subst heq
        exact absurd hmd (by decide)
      · simp [hmd] at heq
    | dir nm ch =>
      by_cases hmd : sEnds ".md" nm = true
      · simp [hmd] at heq
        subst heq
        exact absurd hmd (by decide)
      · simp [hmd] at heq

/-- C6 (witness): with a workspace holding a top-level `SOUL.md` and a
`memory/notes.md`, the persona entry restores `/root/clawd/SOUL.md` and
that path indeed tracks back to a top-level markdown file. -/
theorem c6_witness :
    (∃ name, FsNode.file name ∈
        [FsNode.file "SOUL.md", FsNode.dir "memory" [FsNode.file "notes.md"]] ∧
      sEnds ".md" name = true ∧ "/root/clawd/SOUL.md" = "/root/clawd/" ++ name) ∧
    "memory" ∉ shellPersonaNames
        [FsNode.file "SOUL.md", FsNode.dir "memory" [FsNode.file "notes.md"]] :=
  c6_persona_restore
    [FsNode.file "SOUL.md", FsNode.dir "memory" [FsNode.file "notes.md"]]
    "/root/clawd/SOUL.md" (by decide)

/-! ### C7: restoreFromR2 and the guarded copy chain

`restoreFromR2` spawns one shell command of the shape
`mkdir && rsync1 || true && rsync2 || true && find-cp || true &&
rsync3 || true && rsync4 || true && rsync5 || true`.  Shell `&&` and
`||` associate left with equal precedence, so evaluation threads a
status through the sequence; each `|| true` resets a failed status, so a
failing copy never prevents the following copies from running.  The
external effects (credentials, mount, process stdout, per-command exit
codes, thrown timeouts) are fields of an explicit state record. -/

/-- Result record of `restoreFromR2`, as in restore.ts. -/
structure RestoreResult where
  success : Bool
  lastSync : Option String
  error : Option String
  details : Option String
deriving DecidableEq, Repr

/-- JS `String.prototype.trim`: drop whitespace at both ends. -/
def jsTrim (s : String) : String :=
  ⟨((s.data.dropWhile Char.isWhitespace).reverse.dropWhile Char.isWhitespace).reverse⟩

/-- The `^\d{4}-\d{2}-\d{2}` validation regex of restore.ts. -/
def matchesDatePrefix (s : String) : Bool :=
  match s.data with
  | c1 :: c2 :: c3 :: c4 :: d1 :: c5 :: c6 :: d2 :: c7 :: c8 :: _ =>
      c1.isDigit && c2.isDigit && c3.isDigit && c4.isDigit && (d1 == '-') &&
      c5.isDigit && c6.isDigit && (d2 == '-') && c7.isDigit && c8.isDigit
  | _ => false

/-- The marker validation of restore.ts: `checkLogs.stdout?.trim()` must
be non-empty and match the date-prefix regex; the validated (trimmed)
timestamp is returned. -/
def validMarker (stdout : Option String) : Option String :=
  match stdout with
  | none => none
  | some s =>
    let t := jsTrim s
    if t == "" then none
    else if matchesDatePrefix t then some t else none

/-- External state consumed by one `restoreFromR2` run. -/
structure RestoreEnv where
  R2_ACCESS_KEY_ID : Option String
  R2_SECRET_ACCESS_KEY : Option String
  CF_ACCOUNT_ID : Option String
  mountOk : Bool
  checkThrows : Bool
  checkStdout : Option String
  mkdirOk : Bool
  copyClawdbotOk : Bool
  copySkillsOk : Bool
  copyMdFilesOk : Bool
  copyMemoryOk : Bool
  copyTovOk : Bool
  copyAssetsOk : Bool
  copyPhaseThrows : Bool
  tsReadThrows : Bool
  tsStdout : Option String
deriving Repr

/-- Threaded state of a left-associated shell `&&`/`||` sequence: the
status so far and the names of the commands actually run. -/
structure ChainState where
  status : Bool
  executed : List String
deriving DecidableEq, Repr

/-- `st && cmd`: run the command only when the status so far is ok. -/
def runAnd (st : ChainState) (name : String) (ok : Bool) : ChainState :=
  if st.status then ⟨ok, st.executed ++ [name]⟩ else st

/-- `st || true`: a failed status is reset to ok. -/
def runOrTrue (st : ChainState) : ChainState :=
  if st.status then st else ⟨true, st.executed⟩

/-- Evaluation of the restore command of restore.ts, command by command,
with the left associativity of shell `&&`/`||`. -/
def restoreCmdRun (env : RestoreEnv) : ChainState :=
  runOrTrue (runAnd (runOrTrue (runAnd (runOrTrue (runAnd (runOrTrue (runAnd
    (runOrTrue (runAnd (runOrTrue (runAnd (runAnd ⟨true, []⟩
      "mkdir" env.mkdirOk)
      "clawdbot" env.copyClawdbotOk))
      "skills" env.copySkillsOk))
      "mdfiles" env.copyMdFilesOk))
      "memory" env.copyMemoryOk))
      "tov" env.copyTovOk))
      "assets" env.copyAssetsOk)

/-- Transcription of `restoreFromR2` from restore.ts, paired with the
list of commands the copy phase actually ran.  The exit status of the
copy process is never consulted by the source (every component is
guarded by `|| true` and the code only awaits the process), so the
result depends on it only through thrown timeouts. -/
def restoreFromR2 (env : RestoreEnv) : RestoreResult × List String :=
  if !(jsTruthy env.R2_ACCESS_KEY_ID) || !(jsTruthy env.R2_SECRET_ACCESS_KEY) ||
      !(jsTruthy env.CF_ACCOUNT_ID) then
    (⟨false, none, some "R2 storage is not configured", none⟩, [])
  else if !env.mountOk then
    (⟨false, none, some "Failed to mount R2 storage", none⟩, [])
  else if env.checkThrows then
    (⟨false, none, some "Failed to verify R2 backup", some "process error"⟩, [])
  else
    match validMarker env.checkStdout with
    | none =>
      (⟨false, none, some "No valid backup found in R2",
        some "R2/.last-sync is missing or invalid. This may be a fresh deployment."⟩, [])
    | some _ =>
      let st := restoreCmdRun env
      if env.copyPhaseThrows || env.tsReadThrows then
        (⟨false, none, some "Restore error", some "process error"⟩, st.executed)
      else
        (⟨true, env.tsStdout.map jsTrim, none, none⟩, st.executed)

theorem runOrTrue_runAnd_true (ex : List String) (name : String) (ok : Bool) :
    runOrTrue (runAnd ⟨true, ex⟩ name ok) = ⟨true, ex ++ [name]⟩ := by
  cases ok <;> simp [runAnd, runOrTrue]

/-- C7. With credentials, a successful mount, a valid marker, a
successful `mkdir` and no thrown timeouts, every one of the six copy
entries runs — whatever the exit status of each individual copy — and
the run returns `success = true`. -/
theorem c7_partial_copy_failure (env : RestoreEnv)
    (hak : jsTruthy env.R2_ACCESS_KEY_ID = true)
    (hsk : jsTruthy env.R2_SECRET_ACCESS_KEY = true)
    (hacc : jsTruthy env.CF_ACCOUNT_ID = true)
    (hm : env.mountOk = true)
    (hct : env.checkThrows = false)
    (hv : (validMarker env.checkStdout).isSome = true)
    (hmk : env.mkdirOk = true)
    (hcpt : env.copyPhaseThrows = false)
    (htst : env.tsReadThrows = false) :
    (restoreFromR2 env).2 =
      ["mkdir", "clawdbot", "skills", "mdfiles", "memory", "tov", "assets"] ∧
    (restoreFromR2 env).1.success = true := by
  have hchain : restoreCmdRun env =
      ⟨true, ["mkdir", "clawdbot", "skills", "mdfiles", "memory", "tov", "assets"]⟩ := by
    unfold restoreCmdRun
    rw [hmk]
    have h1 : runAnd ⟨true, ([] : List String)⟩ "mkdir" true = ⟨true, ["mkdir"]⟩ := by
      simp [runAnd]
    rw [h1, runOrTrue_runAnd_true, runOrTrue_runAnd_true, runOrTrue_runAnd_true,
      runOrTrue_runAnd_true, runOrTrue_runAnd_true, runOrTrue_runAnd_true]
    rfl
  obtain ⟨t, ht⟩ := Option.isSome_iff_exists.mp hv
  unfold restoreFromR2
  rw [hak, hsk, hacc, hm, hct, ht, hchain]
  simp [hcpt, htst]

/-- C7 (witness): a concrete run whose `skills` copy fails still runs the
remaining entries and reports success. -/
theorem c7_witness :
    (restoreFromR2 ⟨some "ak", some "sk", some "acct", true, false,
        some "2026-02-10T00:00:00Z", true, true, false, true, true, true, true,
        false, false, some "2026-02-10T00:00:00Z"⟩).2 =
      ["mkdir", "clawdbot", "skills", "mdfiles", "memory", "tov", "assets"] ∧
    (restoreFromR2 ⟨some "ak", some "sk", some "acct", true, false,
        some "2026-02-10T00:00:00Z", true, true, false, true, true, true, true,
        false, false, some "2026-02-10T00:00:00Z"⟩).1.success = true :=
  c7_partial_copy_failure
    ⟨some "ak", some "sk", some "acct", true, false,
     some "2026-02-10T00:00:00Z", true, true, false, true, true, true, true,
     false, false, some "2026-02-10T00:00:00Z"⟩
    rfl rfl rfl rfl rfl (by decide) rfl rfl rfl

/-! ### Config synthesis (the node script embedded in start-openclaw.sh)

The script reads the JSON config, patches it from environment variables
and writes it back.  The record below carries the fields the script
touches; `none` stands for an absent JSON key.  The legacy-cleanup steps
at the top of the script (dropping a broken `anthropic` provider entry
and rewriting an invalid `openai.api` value) only normalise provider
entries carried over from old backups and are subsumed here by the
arbitrary initial provider fields. -/

/-- `channels.telegram` of the synthesized config. -/
structure TelegramCfg where
  botToken : Option String := none
  enabled : Option Bool := none
  dmPolicy : Option String := none
  allowFrom : Option (List String) := none
deriving DecidableEq, Repr

/-- `channels.discord.dm` of the synthesized config. -/
structure DiscordDmCfg where
  policy : Option String := none
  allowFrom : Option (List String) := none
deriving DecidableEq, Repr

/-- `channels.discord` of the synthesized config. -/
structure DiscordCfg where
  token : Option String := none
  enabled : Option Bool := none
  dm : Option DiscordDmCfg := none
deriving DecidableEq, Repr

/-- `channels.slack` of the synthesized config. -/
structure SlackCfg where
  botToken : Option String := none
  appToken : Option String := none
  enabled : Option Bool := none
deriving DecidableEq, Repr

/-- One entry of a provider model catalog. -/
structure ModelEntry where
  id : String
  name : String
  contextWindow : Nat
deriving DecidableEq, Repr

/-- A `models.providers.*` entry of the synthesized config. -/
structure ProviderCfg where
  baseUrl : Option String := none
  api : Option String := none
  apiKey : Option String := none
  models : List ModelEntry := []
deriving DecidableEq, Repr

/-- The portion of the synthesized JSON config the script touches. -/
structure Config where
  gatewayPort : Option Nat := none
  gatewayMode : Option String := none
  trustedProxies : List String := []
  gatewayAuthToken : Option String := none
  allowInsecureAuth : Option Bool := none
  telegram : Option TelegramCfg := none
  discord : Option DiscordCfg := none
  slack : Option SlackCfg := none
  providerOpenai : Option ProviderCfg := none
  providerAnthropic : Option ProviderCfg := none
  modelAliases : List (String × String) := []
  primaryModel : Option String := none
deriving DecidableEq, Repr

/-- The environment variables the config-synthesis script consumes. -/
structure BootEnv where
  CLAWDBOT_GATEWAY_TOKEN : Option String := none
  CLAWDBOT_DEV_MODE : Option String := none
  TELEGRAM_BOT_TOKEN : Option String := none
  TELEGRAM_DM_POLICY : Option String := none
  TELEGRAM_DM_ALLOW_FROM : Option String := none
  DISCORD_BOT_TOKEN : Option String := none
  DISCORD_DM_POLICY : Option String := none
  SLACK_BOT_TOKEN : Option String := none
  SLACK_APP_TOKEN : Option String := none
  AI_GATEWAY_BASE_URL : Option String := none
  ANTHROPIC_BASE_URL : Option String := none
  OPENAI_API_KEY : Option String := none
  ANTHROPIC_API_KEY : Option String := none
deriving Repr

/-- JS `a || b` over possibly-unset strings: an unset or empty left
operand falls through to the right one. -/
def jsOr (a b : Option String) : Option String :=
  match a with
  | some s => if s == "" then b else some s
  | none => b

/-- JS `s.split(',')`. -/
def splitComma (s : String) : List String := s.split (fun c => c == ',')

/-- JS object key update for the model-alias table: replace the value of
an existing key, append otherwise. -/
def setKey (l : List (String × String)) (k v : String) : List (String × String) :=
  if l.any (fun e => e.1 == k) then
    l.map (fun e => if e.1 == k then (e.1, v) else e)
  else l ++ [(k, v)]

/-- First-occurrence string replacement, as JS
`s.replace(pattern, replacement)` with a plain-string pattern. -/
def replaceFirstL (pat rep : List Char) : List Char → List Char
  | [] => if startsL pat [] then rep else []
  | c :: rest =>
      if startsL pat (c :: rest) then rep ++ (c :: rest).drop pat.length
      else c :: replaceFirstL pat rep rest

/-- String form of `replaceFirstL`. -/
def sReplaceFirst (pat rep s : String) : String :=
  ⟨replaceFirstL pat.data rep.data s.data⟩

/-- The `value || 'pairing'` fallback applied to both DM-policy
variables. -/
def dmPolicyOf (v : Option String) : String :=
  match v with
  | some p => if p == "" then "pairing" else p
  | none => "pairing"

/-- Gateway section of the script: fixed port, local mode, trusted
proxies, optional token auth and the dev-mode control-UI flag. -/
def applyGatewayCfg (env : BootEnv) (c : Config) : Config :=
  let c1 := { c with gatewayPort := some 18789, gatewayMode := some "local",
                     trustedProxies := ["10.1.0.0"] }
  let c2 := if jsTruthy env.CLAWDBOT_GATEWAY_TOKEN then
      { c1 with gatewayAuthToken := env.CLAWDBOT_GATEWAY_TOKEN }
    else c1
  if env.CLAWDBOT_DEV_MODE == some "true" then
    { c2 with allowInsecureAuth := some true }
  else c2

/-- Telegram section of the script: with a bot token, record it, enable
the channel, set the DM policy (default `pairing`), and set the
allow-list from `TELEGRAM_DM_ALLOW_FROM` when given, else to `["*"]`
exactly when the policy is `open`. -/
def applyTelegram (env : BootEnv) (c : Config) : Config :=
  if jsTruthy env.TELEGRAM_BOT_TOKEN then
    let tg0 := c.telegram.getD {}
    let policy := dmPolicyOf env.TELEGRAM_DM_POLICY
    let tg1 := { tg0 with botToken := env.TELEGRAM_BOT_TOKEN,
                          enabled := some true, dmPolicy := some policy }
    let tg2 :=
      if jsTruthy env.TELEGRAM_DM_ALLOW_FROM then
        { tg1 with allowFrom := some (splitComma (env.TELEGRAM_DM_ALLOW_FROM.getD "")) }
      else if policy == "open" then { tg1 with allowFrom := some ["*"] }
      else tg1
    { c with telegram := some tg2 }
  else c

/-- Discord section of the script: with a bot token, record it, enable
the channel, set the nested `dm.policy` (default `pairing`) and set
`dm.allowFrom` to `["*"]` exactly when the policy is `open`. -/
def applyDiscord (env : BootEnv) (c : Config) : Config :=
  if jsTruthy env.DISCORD_BOT_TOKEN then
    let dc0 := c.discord.getD {}
    let policy := dmPolicyOf env.DISCORD_DM_POLICY
    let dm0 := dc0.dm.getD {}
    let dm1 := { dm0 with policy := some policy }
    let dm2 := if policy == "open" then { dm1 with allowFrom := some ["*"] } else dm1
    { c with discord := some { dc0 with token := env.DISCORD_BOT_TOKEN,
                                        enabled := some true, dm := some dm2 } }
  else c

/-- Slack section of the script: both tokens present enable the channel. -/
def applySlack (env : BootEnv) (c : Config) : Config :=
  if jsTruthy env.SLACK_BOT_TOKEN && jsTruthy env.SLACK_APP_TOKEN then
    { c with slack := some { (c.slack.getD {}) with
        botToken := env.SLACK_BOT_TOKEN, appToken := env.SLACK_APP_TOKEN,
        enabled := some true } }
  else c

/-- The base URL the dispatch examines: first truthy of
`AI_GATEWAY_BASE_URL` and `ANTHROPIC_BASE_URL`, empty when both are
unset, trailing slashes trimmed. -/
def dispatchBaseUrl (env : BootEnv) : String :=
  trimTrailSlash ((jsOr env.AI_GATEWAY_BASE_URL env.ANTHROPIC_BASE_URL).getD "")

/-- The OpenAI branch model catalog. -/
def openAiModels : List ModelEntry :=
  [⟨"gpt-5.2", "GPT-5.2", 200000⟩, ⟨"gpt-5", "GPT-5", 200000⟩,
   ⟨"gpt-4.5-preview", "GPT-4.5 Preview", 128000⟩]

/-- The Google AI Studio branch model catalog. -/
def googleAiStudioModels : List ModelEntry :=
  [⟨"google-ai-studio/gemini-3-flash-preview", "Gemini 3 Flash Preview", 1000000⟩,
   ⟨"google-ai-studio/gemini-2.5-flash", "Gemini 2.5 Flash", 1000000⟩,
   ⟨"google-ai-studio/gemini-2.5-pro", "Gemini 2.5 Pro", 1000000⟩]

/-- The Fireworks branch model catalog. -/
def fireworksModels : List ModelEntry :=
  [⟨"accounts/fireworks/models/deepseek-v3p2", "DeepSeek V3.2", 163840⟩,
   ⟨"accounts/fireworks/models/kimi-k2p5", "Kimi K2.5", 262144⟩,
   ⟨"accounts/fireworks/models/qwen3-235b-a22b", "Qwen 3 235B", 131072⟩]

/-- The OpenRouter branch model catalog. -/
def openRouterModels : List ModelEntry :=
  [⟨"deepseek/deepseek-v3.2", "DeepSeek V3.2", 163840⟩,
   ⟨"moonshotai/kimi-k2.5", "Kimi 2.5", 262144⟩,
   ⟨"google/gemma-3-27b-it", "Gemma 3 27B", 131072⟩]

/-- The Anthropic (custom base URL) branch model catalog. -/
def anthropicModels : List ModelEntry :=
  [⟨"claude-opus-4-5-20251101", "Claude Opus 4.5", 200000⟩,
   ⟨"claude-sonnet-4-5-20250929", "Claude Sonnet 4.5", 200000⟩,
   ⟨"claude-haiku-4-5-20251001", "Claude Haiku 4.5", 200000⟩]

/-- Provider dispatch of the script: a five-way if/else chain over the
configured base URL, with a default branch; every branch assigns
`agents.defaults.model.primary`. -/
def applyProviderDispatch (env : BootEnv) (c : Config) : Config :=
  let baseUrl := dispatchBaseUrl env
  let isOpenAI := sEnds "/openai" baseUrl
  let isOpenRouter := sEnds "/openrouter" baseUrl
  let isFireworks := sIncl "fireworks.ai" baseUrl || sEnds "/fireworks" baseUrl ||
      sEnds "/custom-fireworks" baseUrl
  let isGoogleAIStudio := sEnds "/google-ai-studio" baseUrl
  if isOpenAI then
    { c with
      providerOpenai := some ⟨some baseUrl, some "openai-responses", none, openAiModels⟩,
      modelAliases := setKey (setKey (setKey c.modelAliases
        "openai/gpt-5.2" "GPT-5.2") "openai/gpt-5" "GPT-5")
        "openai/gpt-4.5-preview" "GPT-4.5",
      primaryModel := some "openai/gpt-5.2" }
  else if isGoogleAIStudio then
    let compatBaseUrl := sReplaceFirst "/google-ai-studio" "/compat" baseUrl
    { c with
      providerOpenai := some ⟨some compatBaseUrl, some "openai-completions",
        env.OPENAI_API_KEY, googleAiStudioModels⟩,
      modelAliases := setKey (setKey (setKey c.modelAliases
        "openai/google-ai-studio/gemini-3-flash-preview" "Gemini 3 Flash")
        "openai/google-ai-studio/gemini-2.5-flash" "Gemini 2.5 Flash")
        "openai/google-ai-studio/gemini-2.5-pro" "Gemini 2.5 Pro",
      primaryModel := some "openai/google-ai-studio/gemini-3-flash-preview" }
  else if isFireworks then
    { c with
      providerOpenai := some ⟨some baseUrl, some "openai-completions",
        env.OPENAI_API_KEY, fireworksModels⟩,
      modelAliases := setKey (setKey (setKey c.modelAliases
        "openai/accounts/fireworks/models/deepseek-v3p2" "DeepSeek V3.2")
        "openai/accounts/fireworks/models/kimi-k2p5" "Kimi K2.5")
        "openai/accounts/fireworks/models/qwen3-235b-a22b" "Qwen 3",
      primaryModel := some "openai/accounts/fireworks/models/deepseek-v3p2" }
  else if isOpenRouter then
    { c with
      providerOpenai := some ⟨some baseUrl, some "openai-completions", none,
        openRouterModels⟩,
      modelAliases := setKey (setKey (setKey c.modelAliases
        "openai/deepseek/deepseek-v3.2" "DeepSeek V3.2")
        "openai/moonshotai/kimi-k2.5" "Kimi 2.5")
        "openai/google/gemma-3-27b-it" "Gemma 3",
      primaryModel := some "openai/deepseek/deepseek-v3.2" }
  else if !(baseUrl == "") then
    { c with
      providerAnthropic := some ⟨some baseUrl, some "anthropic-messages",
        (if jsTruthy env.ANTHROPIC_API_KEY then env.ANTHROPIC_API_KEY else none),
        anthropicModels⟩,
      modelAliases := setKey (setKey (setKey c.modelAliases
        "anthropic/claude-opus-4-5-20251101" "Opus 4.5")
        "anthropic/claude-sonnet-4-5-20250929" "Sonnet 4.5")
        "anthropic/claude-haiku-4-5-20251001" "Haiku 4.5",
      primaryModel := some "anthropic/claude-opus-4-5-20251101" }
  else
    { c with primaryModel := some "anthropic/claude-opus-4-5" }

/-- The whole config-synthesis pass, in source order. -/
def updateConfig (env : BootEnv) (c0 : Config) : Config :=
  applyProviderDispatch env
    (applySlack env (applyDiscord env (applyTelegram env (applyGatewayCfg env c0))))

theorem applyProviderDispatch_telegram (env : BootEnv) (c : Config) :
    (applyProviderDispatch env c).telegram = c.telegram := by
  simp only [applyProviderDispatch]
  split
  · rfl
  · split
    · rfl
    · split
      · rfl
      · split
        · rfl
        · split <;> rfl

theorem applyProviderDispatch_discord (env : BootEnv) (c : Config) :
    (applyProviderDispatch env c).discord = c.discord := by
  simp only [applyProviderDispatch]
  split
  · rfl
  · split
    · rfl
    · split
      · rfl
      · split
        · rfl
        · split <;> rfl

theorem applySlack_telegram (env : BootEnv) (c : Config) :
    (applySlack env c).telegram = c.telegram := by
  simp only [applySlack]
  split <;> rfl

theorem applySlack_discord (env : BootEnv) (c : Config) :
    (applySlack env c).discord = c.discord := by
  simp only [applySlack]
  split <;> rfl

theorem applyDiscord_telegram (env : BootEnv) (c : Config) :
    (applyDiscord env c).telegram = c.telegram := by
  simp only [applyDiscord]
  split <;> rfl

/-! ### C9: open DM policy synthesizes a wildcard allow-list -/

/-- C9. When a channel's DM-policy variable is `open` and no explicit
allow-list is given, the synthesized config carries the wildcard
allow-list: `channels.telegram.allowFrom = ["*"]` for Telegram, and
`channels.discord.dm.allowFrom = ["*"]` for Discord. -/
theorem c9_open_dm_allowlist (env : BootEnv) (c0 : Config) :
    (jsTruthy env.TELEGRAM_BOT_TOKEN = true →
      env.TELEGRAM_DM_POLICY = some "open" →
      env.TELEGRAM_DM_ALLOW_FROM = none →
      ∃ tg, (updateConfig env c0).telegram = some tg ∧
        tg.allowFrom = some ["*"]) ∧
    (jsTruthy env.DISCORD_BOT_TOKEN = true →
      env.DISCORD_DM_POLICY = some "open" →
      ∃ dc dm, (updateConfig env c0).discord = some dc ∧ dc.dm = some dm ∧
        dm.allowFrom = some ["*"]) := by
  constructor
  · intro htok hpol hallow
    rw [updateConfig, applyProviderDispatch_telegram, applySlack_telegram,
      applyDiscord_telegram]
    simp only [applyTelegram, htok, hpol, hallow]
    simp [dmPolicyOf, jsTruthy]
  · intro htok hpol
    rw [updateConfig, applyProviderDispatch_discord, applySlack_discord]
    simp only [applyDiscord, htok, hpol]
    simp [dmPolicyOf]

/-- C9 (witness): a concrete environment with both channels set to the
open DM policy and no explicit allow-list. -/
theorem c9_witness :
    (∃ tg, (updateConfig
        { TELEGRAM_BOT_TOKEN := some "tt", TELEGRAM_DM_POLICY := some "open",
          DISCORD_BOT_TOKEN := some "dt", DISCORD_DM_POLICY := some "open" }
        {}).telegram = some tg ∧ tg.allowFrom = some ["*"]) ∧
    (∃ dc dm, (updateConfig
        { TELEGRAM_BOT_TOKEN := some "tt", TELEGRAM_DM_POLICY := some "open",
          DISCORD_BOT_TOKEN := some "dt", DISCORD_DM_POLICY := some "open" }
        {}).discord = some dc ∧ dc.dm = some dm ∧ dm.allowFrom = some ["*"]) :=
  ⟨(c9_open_dm_allowlist
      { TELEGRAM_BOT_TOKEN := some "tt", TELEGRAM_DM_POLICY := some "open",
        DISCORD_BOT_TOKEN := some "dt", DISCORD_DM_POLICY := some "open" }
      {}).1 rfl rfl rfl,
   (c9_open_dm_allowlist
      { TELEGRAM_BOT_TOKEN := some "tt", TELEGRAM_DM_POLICY := some "open",
        DISCORD_BOT_TOKEN := some "dt", DISCORD_DM_POLICY := some "open" }
      {}).2 rfl rfl⟩

/-! ### C10: the provider dispatch always yields a primary model -/

/-- C10. For every environment (any combination of base-URL variables,
both unset included) and every initial config, the synthesis takes
exactly one branch of the provider dispatch and leaves
`agents.defaults.model.primary` set to a non-empty model identifier. -/
theorem c10_primary_model_always_set (env : BootEnv) (c0 : Config) :
    ∃ m, (updateConfig env c0).primaryModel = some m ∧ m ≠ "" := by
  rw [updateConfig]
  simp only [applyProviderDispatch]
  split
  · exact ⟨"openai/gpt-5.2", rfl, by decide⟩
  · split
    · exact ⟨"openai/google-ai-studio/gemini-3-flash-preview", rfl, by decide⟩
    · split
      · exact ⟨"openai/accounts/fireworks/models/deepseek-v3p2", rfl, by decide⟩
      · split
        · exact ⟨"openai/deepseek/deepseek-v3.2", rfl, by decide⟩
        · split
          · exact ⟨"anthropic/claude-opus-4-5-20251101", rfl, by decide⟩
          · exact ⟨"anthropic/claude-opus-4-5", rfl, by decide⟩

end Moltworker
